import Mathlib

/-! Chat frontend: HTTP wrappers, title hook and UI auto-registration.

A shallow embedding of the JavaScript sources under `Frontend/ai/src`:

* `Modules/Chat/Api/chats-api.js` (`getChats`, `getChat`),
* `Modules/Chat/Api/chat-api.js` (`chatApi`, `createChat`),
* `Shared/Routes/router.js` (the `routes` table),
* `Shared/ui/index.js` (the component auto-export loop),
* `main.js` (the `afterEach` title hook and the registration loop).

Asynchronous functions are embedded as runs: the list of observable events
the call performs (requests, body reads, console output) together with the
way the returned promise settles.  The browser's `fetch`, the conversion of a
chat id to a string and `JSON.stringify` are parameters; the last two may
throw.
-/

namespace CutCost

/-! ## JavaScript values -/

/-- The JavaScript values the embedding gives a base URL and a route title:
`undefined`, `null`, the booleans and the strings. On each of them the
conversion to a string is defined and cannot throw. -/
inductive JsVal where
  | undefined : JsVal
  | null : JsVal
  | bool (b : Bool) : JsVal
  | str (s : String) : JsVal
  deriving DecidableEq, Repr

/-- The conversion `ToString` applied by a template literal `${v}` and by
`+` against a string. -/
def JsVal.toStr : JsVal → String
  | .undefined => "undefined"
  | .null => "null"
  | .bool true => "true"
  | .bool false => "false"
  | .str s => s

/-- The conversion `ToBoolean`, which `||` tests its left operand with. -/
def JsVal.truthy : JsVal → Bool
  | .undefined => false
  | .null => false
  | .bool b => b
  | .str s => s.length != 0

/-- The operator `a + b` where the right operand is a string: the left operand
is converted to a string and the two are concatenated. -/
def JsVal.addStr (a : JsVal) (b : String) : JsVal :=
  .str (a.toStr ++ b)

/-- The operator `a || b`: `a` when `a` is truthy, otherwise `b`. -/
def JsVal.or (a b : JsVal) : JsVal :=
  if a.truthy then a else b

/-- A thrown JavaScript error: `new Error(message)` has `name = "Error"`. -/
structure JsError where
  name : String
  message : String
  deriving DecidableEq, Repr

/-- The expression `new Error(message)`. -/
def JsError.new (message : String) : JsError :=
  { name := "Error", message := message }

/-! ## The HTTP wrappers -/

/-- The second argument of `fetch`, as `createChat` builds it. The `body` is
`none` when `JSON.stringify` returned `undefined`: the request then carries
no body. -/
structure RequestInit where
  method : String
  headers : List (String × String)
  body : Option String
  deriving DecidableEq, Repr

/-- One call of `fetch(url)` or `fetch(url, init)`. -/
structure Request where
  url : String
  init : Option RequestInit
  deriving DecidableEq, Repr

/-- What the wrappers read of a `Response`: its `ok` flag and how the promise
returned by `response.json()` settles (the parsed body, or a rejection). -/
structure Response (J : Type) where
  ok : Bool
  json : Except JsError J

/-- The observable actions of a wrapper call, in program order. -/
inductive Event where
  | fetch (request : Request) : Event
  | json : Event
  | consoleError (label : String) (error : JsError) : Event
  deriving DecidableEq, Repr

/-- A finished run of asynchronous code: the events performed and either the
value produced or the error thrown. -/
structure Run (α : Type) where
  trace : List Event
  result : Except JsError α

namespace Run

/-- A run that performs nothing and produces `a`. -/
def pure {α : Type} (a : α) : Run α :=
  { trace := [], result := .ok a }

/-- The statement `throw error`. -/
def throw {α : Type} (error : JsError) : Run α :=
  { trace := [], result := .error error }

/-- Sequencing: the continuation runs only when the first run did not throw. -/
def bind {α β : Type} (r : Run α) (k : α → Run β) : Run β :=
  match r.result with
  | .error e => { trace := r.trace, result := .error e }
  | .ok a => { trace := r.trace ++ (k a).trace, result := (k a).result }

/-- The statement `try { body } catch (error) { handler }`. -/
def tryCatch {α : Type} (body : Run α) (handler : JsError → Run α) : Run α :=
  match body.result with
  | .ok a => { trace := body.trace, result := .ok a }
  | .error e => { trace := body.trace ++ (handler e).trace, result := (handler e).result }

/-- The expression `await promise` for a promise that settles as `outcome`:
the value when it fulfils, a throw at the `await` when it rejects. -/
def await {α : Type} (outcome : Except JsError α) : Run α :=
  { trace := [], result := outcome }

/-- The evaluation of an expression that produces a value or throws, with no
event of its own: a template literal, a call of `JSON.stringify`. -/
def evaluate {α : Type} (outcome : Except JsError α) : Run α :=
  { trace := [], result := outcome }

/-- The call `fetch(...)`: the request is issued; the value is the promise,
represented by the way it settles. -/
def callFetch {J : Type} (fetch : Request → Except JsError (Response J))
    (request : Request) : Run (Except JsError (Response J)) :=
  { trace := [.fetch request], result := .ok (fetch request) }

/-- The call `response.json()`: the body is read; the value is the promise,
represented by the way it settles. -/
def callJson {J : Type} (response : Response J) : Run (Except JsError J) :=
  { trace := [.json], result := .ok response.json }

/-- The call `console.error(label, error)`. -/
def consoleError (label : String) (error : JsError) : Run Unit :=
  { trace := [.consoleError label error], result := .ok () }

/-- The end of an `async` function whose body returned a promise: the
function's own promise settles the way the returned one does. A rejection
of the returned promise is not thrown inside the body. -/
def adopt {α : Type} (body : Run (Except JsError α)) : Run α :=
  match body.result with
  | .error e => { trace := body.trace, result := .error e }
  | .ok outcome => { trace := body.trace, result := outcome }

instance : Monad Run where
  pure := Run.pure
  bind := Run.bind

/-- The requests a run issued, in order. -/
def requests {α : Type} (r : Run α) : List Request :=
  r.trace.filterMap fun
    | .fetch request => some request
    | _ => none

/-- The errors a run wrote to the console, in order. -/
def logged {α : Type} (r : Run α) : List JsError :=
  r.trace.filterMap fun
    | .consoleError _ error => some error
    | _ => none

end Run

/-- The store of `global-store.js`: two values read from the build
environment, each a string or `undefined`. -/
structure GlobalStore where
  app_url : JsVal
  app_name : JsVal

/-- The function `getChats` of `chats-api.js`. Its last statement is
`return response.json()` without `await`, so the promise leaves the `try`
block as a value and the function's promise adopts it. -/
def getChats {J : Type} (global : GlobalStore)
    (fetch : Request → Except JsError (Response J)) : Run J :=
  Run.adopt <|
    Run.tryCatch
      (do
        let response ← (Run.callFetch fetch ⟨global.app_url.toStr ++ "/chats", none⟩) >>= Run.await
        if !response.ok then
          Run.throw (JsError.new "Network response was not ok")
        else
          Run.callJson response)
      (fun error => do
        Run.consoleError "Error fetching chats:" error
        Run.throw error)

/-- The function `getChat` of `chats-api.js`. The argument `chatId` is any
value, of a type `I`; `toStr` is the conversion to a string that the template
literal applies to it, which throws a `TypeError` for a Symbol. The literal
is evaluated inside the `try` block, before `fetch` is called. The last
statement is `return await response.json()`, so a rejected body read is
thrown inside the `try` block. -/
def getChat {I J : Type} (global : GlobalStore)
    (fetch : Request → Except JsError (Response J))
    (toStr : I → Except JsError String) (chatId : I) : Run J :=
  Run.tryCatch
    (do
      let id ← Run.evaluate (toStr chatId)
      let response ← (Run.callFetch fetch
        ⟨global.app_url.toStr ++ "/chats/" ++ id, none⟩) >>= Run.await
      if !response.ok then
        Run.throw (JsError.new "Network response was not ok")
      else
        (Run.callJson response) >>= Run.await)
    (fun error => do
      Run.consoleError "Error fetching chat:" error
      Run.throw error)

/-- The function `createChat` of `chat-api.js`: no `try`, no status check.
The payload `chat` is any value, of a type `C`; `stringify` is
`JSON.stringify` on it, which returns a string, returns `undefined` (`none`)
or throws. The arguments of `fetch` are evaluated before the call, so a
throwing `JSON.stringify` leaves the function before any request. -/
def createChat {C J : Type} (global : GlobalStore)
    (stringify : C → Except JsError (Option String))
    (fetch : Request → Except JsError (Response J)) (chat : C) : Run J := do
  let body ← Run.evaluate (stringify chat)
  let response ← (Run.callFetch fetch
    ⟨global.app_url.toStr ++ "/chat",
      some { method := "POST",
             headers := [("Content-Type", "application/json")],
             body := body }⟩) >>= Run.await
  (Run.callJson response) >>= Run.await

/-- Some values a caller can pass as a chat id: a string, or a Symbol with a
description. -/
inductive ChatId where
  | str (s : String) : ChatId
  | symbol (description : String) : ChatId
  deriving DecidableEq, Repr

/-- The conversion a template literal applies to a chat id: a string is
itself, a Symbol throws. -/
def ChatId.toStr : ChatId → Except JsError String
  | .str s => .ok s
  | .symbol _ =>
    .error { name := "TypeError", message := "Cannot convert a Symbol value to a string" }

/-- Some values a caller can pass as a chat payload: the empty object,
`undefined`, and a BigInt. -/
inductive Payload where
  | emptyObject : Payload
  | undefined : Payload
  | bigInt (n : Int) : Payload
  deriving DecidableEq, Repr

/-- The function `JSON.stringify` on these payloads: `{}` for the empty
object, `undefined` for `undefined`, a `TypeError` for a BigInt. -/
def Payload.stringify : Payload → Except JsError (Option String)
  | .emptyObject => .ok (some "{}")
  | .undefined => .ok none
  | .bigInt _ =>
    .error { name := "TypeError", message := "Do not know how to serialize a BigInt" }

/-! ## `chat-api.js`: the object `chatApi` returns -/

/-- Where an identifier of `chat-api.js` is bound. -/
inductive Binding where
  | chatApiLocal (ident : String) : Binding
  | moduleLevel (ident : String) : Binding
  | globalObject (ident : String) : Binding
  deriving DecidableEq, Repr

/-- The bindings of `chat-api.js` at module level: the import `globalStore`
and the export `chatApi`. -/
def chatApiModuleScope : List String := ["globalStore", "chatApi"]

/-- The bindings declared in the body of `chatApi`: `global` and `createChat`. -/
def chatApiFunctionScope : List String := ["global", "createChat"]

/-- The shorthand properties of the object literal `chatApi` returns, in
source order. -/
def chatApiMembers : List String :=
  ["getChatHistory", "getChatHistoryByUser", "createChat", "updateChat"]

/-- Evaluation of an identifier inside `chatApi`: the function scope, then
the module scope, then the properties of the global object; an identifier
found nowhere throws a `ReferenceError`. -/
def resolveIdentifier (globals : List String) (ident : String) : Except JsError Binding :=
  if ident ∈ chatApiFunctionScope then .ok (.chatApiLocal ident)
  else if ident ∈ chatApiModuleScope then .ok (.moduleLevel ident)
  else if ident ∈ globals then .ok (.globalObject ident)
  else .error { name := "ReferenceError", message := ident ++ " is not defined" }

/-- Evaluation of the shorthand properties `names` of an object literal, left
to right, stopping at the first throw. -/
def evalMembers (globals : List String) : List String → Except JsError (List (String × Binding))
  | [] => .ok []
  | ident :: rest =>
    match resolveIdentifier globals ident with
    | .error e => .error e
    | .ok b =>
      match evalMembers globals rest with
      | .error e => .error e
      | .ok members => .ok ((ident, b) :: members)

/-- The call `chatApi()` of `chat-api.js`, in a page whose global object has
the properties `globals`: the returned object, as the binding of each of its
members, or the error thrown. The call `globalStore()` on the first line is
taken to return; the definition of `createChat` cannot throw. -/
def chatApi (globals : List String) : Except JsError (List (String × Binding)) :=
  evalMembers globals chatApiMembers

/-! ## `router.js` and the title hook of `main.js` -/

/-- The two page components `router.js` imports. -/
inductive Page where
  | ShowChat : Page
  | Settings : Page
  deriving DecidableEq, Repr

/-- The `meta` object of a route: `title` is `undefined` when absent. -/
structure RouteMeta where
  title : JsVal
  deriving DecidableEq, Repr

/-- One entry of the `routes` array. -/
structure RouteRecord where
  path : String
  component : Page
  name : Option String
  props : Bool
  routeMeta : RouteMeta
  deriving DecidableEq, Repr

/-- The `routes` array of `router.js`. -/
def routes : List RouteRecord :=
  [ { path := "/", component := .ShowChat, name := none, props := false,
      routeMeta := { title := .str "Chat" } },
    { path := "/:id", component := .ShowChat, name := some "chat", props := true,
      routeMeta := { title := .str "Chat" } },
    { path := "/settings", component := .Settings, name := none, props := false,
      routeMeta := { title := .str "Settings" } } ]

/-- The argument `to` of a navigation hook, as far as `main.js` reads it. -/
structure RouteLocation where
  routeMeta : RouteMeta

/-- The location handed to the hooks by a navigation that matched `record`:
it carries the record's `meta`. -/
def RouteRecord.location (record : RouteRecord) : RouteLocation :=
  { routeMeta := record.routeMeta }

/-- The part of `document` the hook writes. -/
structure Document where
  title : String
  deriving DecidableEq, Repr

/-- The hook `router.afterEach((to) => { document.title = ... })` of
`main.js`. The operator `+` binds tighter than `||`, so the right-hand side
is `(to.meta.title + ' - Nulaidukas') || 'Nulaidikas'`. -/
def afterEach (toRoute : RouteLocation) (document : Document) : Document :=
  { document with
    title := (JsVal.or (toRoute.routeMeta.title.addStr " - Nulaidukas") (.str "Nulaidikas")).toStr }

/-! ## `ui/index.js` and the registration loop of `main.js` -/

/-- The method `s.split(sep)` for a one-character separator. -/
def jsSplit (sep : Char) : List Char → List (List Char)
  | [] => [[]]
  | c :: cs =>
    if c = sep then [] :: jsSplit sep cs
    else
      match jsSplit sep cs with
      | [] => [[c]]
      | seg :: segs => (c :: seg) :: segs

/-- The method `s.replace(pattern, replacement)` for a string pattern: only
the first occurrence is replaced. -/
def jsReplace (pattern replacement : List Char) : List Char → List Char
  | [] => if pattern.isEmpty then replacement else []
  | c :: cs =>
    if pattern.isPrefixOf (c :: cs) then replacement ++ (c :: cs).drop pattern.length
    else c :: jsReplace pattern replacement cs

/-- The expression `path.split('/').pop().replace('.vue', '')` of
`ui/index.js`. The array `split` returns is never empty. -/
def componentName (path : String) : String :=
  String.mk (jsReplace ".vue".data [] (((jsSplit '/' path.data).getLast?).getD []))

/-- The statement `object[key] = value` for a key that names no accessor: an
existing own property keeps its place and takes the new value, a new one
goes last. -/
def addProperty {V : Type} (key : String) (value : V) : List (String × V) → List (String × V)
  | [] => [(key, value)]
  | (k, v) :: rest =>
    if k = key then (k, value) :: rest else (k, v) :: addProperty key value rest

/-- The statement `object[key] = value` on an object created by the literal
`{}`, kept as its list of own properties: an existing key keeps its place
and takes the new value, a new key goes last. The key `__proto__` is the
accessor inherited from `Object.prototype`: assigning to it calls the setter,
which replaces the prototype and creates no own property. -/
def setProperty {V : Type} (key : String) (value : V) (object : List (String × V)) :
    List (String × V) :=
  if key = "__proto__" then object else addProperty key value object

/-- The own property `key` of an object, as `Object.entries` lists it: `none`
when the object has no such own property. -/
def getProperty {V : Type} (key : String) : List (String × V) → Option V
  | [] => none
  | (k, v) :: rest => if k = key then some v else getProperty key rest

/-- A module matched by `import.meta.glob`, as far as the loop reads it. -/
structure VueModule (V : Type) where
  default : V

/-- The loop of `ui/index.js` over `components`, the object of globbed
modules keyed by path, listed in enumeration order: the value of
`exportedComponents` when the loop ends. -/
def exportedComponents {V : Type} (components : List (String × VueModule V)) :
    List (String × V) :=
  components.foldl
    (fun exported entry => setProperty (componentName entry.1) entry.2.default exported) []

/-- The component registry of the Vue application. -/
structure App (V : Type) where
  components : List (String × V)

/-- The call `app.component(name, component)`. -/
def App.component {V : Type} (app : App V) (name : String) (component : V) : App V :=
  { app with components := setProperty name component app.components }

/-- The loop `Object.entries(ui).forEach(([name, component]) => ...)` of
`main.js`. -/
def registerUi {V : Type} (ui : List (String × V)) (app : App V) : App V :=
  ui.foldl (fun app entry => app.component entry.1 entry.2) app

/-- The file name without its extension, as a reader of the loop expects it:
the last `/`-separated segment of `path`, without a trailing `.vue`. -/
def fileStem (path : String) : String :=
  let segment := ((jsSplit '/' path.data).getLast?).getD []
  if ".vue".data.isSuffixOf segment then String.mk (segment.take (segment.length - 4))
  else String.mk segment

/-! ## Names for the values the theorems speak of -/

/-- The URL `getChats` requests. -/
def chatsUrl (global : GlobalStore) : String :=
  global.app_url.toStr ++ "/chats"

/-- The URL `getChat(chatId)` requests, for a chat id the template literal
converts to the string `id`. -/
def chatUrl (global : GlobalStore) (id : String) : String :=
  global.app_url.toStr ++ "/chats/" ++ id

/-- The request `createChat(chat)` issues, for a payload `JSON.stringify`
turns into `body`. -/
def createChatRequest (global : GlobalStore) (body : Option String) : Request :=
  { url := global.app_url.toStr ++ "/chat",
    init := some { method := "POST",
                   headers := [("Content-Type", "application/json")],
                   body := body } }

/-- The error both `chats-api.js` wrappers build for a non-OK response. -/
def notOkError : JsError :=
  JsError.new "Network response was not ok"

/-! ## Theorems: the HTTP wrappers -/

/-- C2: when `fetch` resolves with a response whose `ok` flag is false,
`getChats()` and `getChat(chatId)` fail with `Error('Network response was not
ok')`; the run consists of the request and one console write of that error,
so the body is never read, the error is logged once, and the logged error is
the one the caller receives. For `getChat` the request is the one made for
the string `id` the template literal converts `chatId` to. -/
theorem nonOk_response_logged_once_and_rethrown {I J : Type} (global : GlobalStore)
    (fetch : Request → Except JsError (Response J))
    (toStr : I → Except JsError String) (chatId : I) :
    (∀ response : Response J,
        fetch ⟨chatsUrl global, none⟩ = .ok response → response.ok = false →
        (getChats global fetch).result = .error notOkError ∧
        (getChats global fetch).trace =
          [.fetch ⟨chatsUrl global, none⟩, .consoleError "Error fetching chats:" notOkError] ∧
        Event.json ∉ (getChats global fetch).trace ∧
        (getChats global fetch).logged = [notOkError]) ∧
    (∀ (id : String) (response : Response J), toStr chatId = .ok id →
        fetch ⟨chatUrl global id, none⟩ = .ok response → response.ok = false →
        (getChat global fetch toStr chatId).result = .error notOkError ∧
        (getChat global fetch toStr chatId).trace =
          [.fetch ⟨chatUrl global id, none⟩,
           .consoleError "Error fetching chat:" notOkError] ∧
        Event.json ∉ (getChat global fetch toStr chatId).trace ∧
        (getChat global fetch toStr chatId).logged = [notOkError]) := by
  refine ⟨?_, ?_⟩
  · intro response hfetch hok
    simp [getChats, chatsUrl] at hfetch ⊢
    simp [Run.adopt, Run.tryCatch, Bind.bind, Run.bind, Run.callFetch, Run.await, Run.throw,
      Run.consoleError, Run.callJson, Run.logged, hfetch, hok, notOkError]
  · intro id response hid hfetch hok
    simp [getChat, chatUrl] at hfetch ⊢
    simp [Run.tryCatch, Bind.bind, Run.bind, Run.callFetch, Run.await, Run.evaluate,
      Run.throw, Run.consoleError, Run.callJson, Run.logged, hid, hfetch, hok, notOkError]

/-- C2 at a concrete input: a backend at `http://api` that answers every
request with a non-OK response, and the chat id `'7'`. -/
theorem nonOk_response_logged_once_and_rethrown_witness :
    (getChats (J := Nat) ⟨.str "http://api", .undefined⟩
        (fun _ => .ok ⟨false, .ok 0⟩)).result = .error notOkError ∧
    (getChat (J := Nat) ⟨.str "http://api", .undefined⟩
        (fun _ => .ok ⟨false, .ok 0⟩) ChatId.toStr (.str "7")).logged = [notOkError] :=
  ⟨((nonOk_response_logged_once_and_rethrown ⟨.str "http://api", .undefined⟩
      (fun _ => .ok ⟨false, .ok 0⟩) ChatId.toStr (.str "7")).1 ⟨false, .ok 0⟩ rfl rfl).1,
   ((nonOk_response_logged_once_and_rethrown ⟨.str "http://api", .undefined⟩
      (fun _ => .ok ⟨false, .ok 0⟩) ChatId.toStr (.str "7")).2 "7" ⟨false, .ok 0⟩
      rfl rfl rfl).2.2.2⟩

/-- C3 fails as stated: for a chat id that is a Symbol the template literal
throws before `fetch` is called, so `getChat` issues no request; the
`TypeError` is logged and rethrown. -/
theorem getChat_symbol_id_issues_no_request :
    (getChat (J := Nat) ⟨.str "http://api", .undefined⟩
        (fun _ => .ok ⟨true, .ok 42⟩) ChatId.toStr (.symbol "x")).requests = [] ∧
    (getChat (J := Nat) ⟨.str "http://api", .undefined⟩
        (fun _ => .ok ⟨true, .ok 42⟩) ChatId.toStr (.symbol "x")).result
      = .error ⟨"TypeError", "Cannot convert a Symbol value to a string"⟩ := by
  simp [getChat, ChatId.toStr, Run.tryCatch, Bind.bind, Run.bind, Run.callFetch, Run.await,
    Run.evaluate, Run.throw, Run.consoleError, Run.callJson, Run.requests]

/-- C3 as amended: whatever `fetch` does, `getChats()` issues exactly one
request, to `app_url ++ '/chats'`; for every chat id that the template
literal converts to a string `id`, `getChat(chatId)` issues exactly one
request, to `app_url ++ '/chats/' ++ id`; when the response is OK and its
body parses to `body`, the call returns `body`; and for a chat id whose
conversion throws, `getChat` issues no request, logs the error once and
rethrows it. -/
theorem one_request_when_id_converts {I J : Type} (global : GlobalStore)
    (fetch : Request → Except JsError (Response J))
    (toStr : I → Except JsError String) (chatId : I) :
    (getChats global fetch).requests = [⟨global.app_url.toStr ++ "/chats", none⟩] ∧
    (∀ id : String, toStr chatId = .ok id →
        (getChat global fetch toStr chatId).requests =
          [⟨global.app_url.toStr ++ "/chats/" ++ id, none⟩]) ∧
    (∀ (response : Response J) (body : J),
        fetch ⟨global.app_url.toStr ++ "/chats", none⟩ = .ok response →
        response.ok = true → response.json = .ok body →
        (getChats global fetch).result = .ok body) ∧
    (∀ (id : String) (response : Response J) (body : J), toStr chatId = .ok id →
        fetch ⟨global.app_url.toStr ++ "/chats/" ++ id, none⟩ = .ok response →
        response.ok = true → response.json = .ok body →
        (getChat global fetch toStr chatId).result = .ok body) ∧
    (∀ e : JsError, toStr chatId = .error e →
        (getChat global fetch toStr chatId).requests = [] ∧
        (getChat global fetch toStr chatId).result = .error e ∧
        (getChat global fetch toStr chatId).logged = [e]) := by
  refine ⟨?_, ?_, ?_, ?_, ?_⟩
  · cases hfetch : fetch ⟨global.app_url.toStr ++ "/chats", none⟩ with
    | error e =>
      simp [getChats, Run.adopt, Run.tryCatch, Bind.bind, Run.bind, Run.callFetch, Run.await,
        Run.throw, Run.consoleError, Run.callJson, Run.requests, hfetch]
    | ok response =>
      cases hok : response.ok <;>
        simp [getChats, Run.adopt, Run.tryCatch, Bind.bind, Run.bind, Run.callFetch, Run.await,
          Run.throw, Run.consoleError, Run.callJson, Run.requests, hfetch, hok]
  · intro id hid
    cases hfetch : fetch ⟨global.app_url.toStr ++ "/chats/" ++ id, none⟩ with
    | error e =>
      simp [getChat, Run.tryCatch, Bind.bind, Run.bind, Run.callFetch, Run.await,
        Run.evaluate, Run.throw, Run.consoleError, Run.callJson, Run.requests, hid, hfetch]
    | ok response =>
      cases hok : response.ok <;> cases hjson : response.json <;>
        simp [getChat, Run.tryCatch, Bind.bind, Run.bind, Run.callFetch, Run.await,
          Run.evaluate, Run.throw, Run.consoleError, Run.callJson, Run.requests, hid, hfetch,
          hok, hjson]
  · intro response body hfetch hok hjson
    simp [getChats, Run.adopt, Run.tryCatch, Bind.bind, Run.bind, Run.callFetch, Run.await,
      Run.throw, Run.consoleError, Run.callJson, hfetch, hok, hjson]
  · intro id response body hid hfetch hok hjson
    simp [getChat, Run.tryCatch, Bind.bind, Run.bind, Run.callFetch, Run.await,
      Run.evaluate, Run.throw, Run.consoleError, Run.callJson, hid, hfetch, hok, hjson]
  · intro e hid
    simp [getChat, Run.tryCatch, Bind.bind, Run.bind, Run.callFetch, Run.await,
      Run.evaluate, Run.throw, Run.consoleError, Run.callJson, Run.requests, Run.logged, hid]

/-- C3 as amended, at a concrete input: a backend at `http://api` that answers
every request with an OK response whose body parses to `42`, and the chat id
`'7'`. -/
theorem one_request_when_id_converts_witness :
    (getChat (J := Nat) ⟨.str "http://api", .undefined⟩
        (fun _ => .ok ⟨true, .ok 42⟩) ChatId.toStr (.str "7")).requests
      = [⟨"http://api/chats/7", none⟩] ∧
    (getChat (J := Nat) ⟨.str "http://api", .undefined⟩
        (fun _ => .ok ⟨true, .ok 42⟩) ChatId.toStr (.str "7")).result = .ok 42 :=
  ⟨(one_request_when_id_converts ⟨.str "http://api", .undefined⟩
      (fun _ => .ok ⟨true, .ok 42⟩) ChatId.toStr (.str "7")).2.1 "7" rfl,
   (one_request_when_id_converts ⟨.str "http://api", .undefined⟩
      (fun _ => .ok ⟨true, .ok 42⟩) ChatId.toStr (.str "7")).2.2.2.1 "7" ⟨true, .ok 42⟩ 42
      rfl rfl rfl rfl⟩

/-- C5 fails as stated: for a payload that `JSON.stringify` cannot serialise,
here a BigInt, the call throws before `fetch` is called, so `createChat`
issues no request and the `TypeError` reaches the caller. -/
theorem createChat_bigInt_payload_issues_no_request :
    (createChat (J := Nat) ⟨.str "http://api", .undefined⟩ Payload.stringify
        (fun _ => .ok ⟨true, .ok 42⟩) (.bigInt 1)).requests = [] ∧
    (createChat (J := Nat) ⟨.str "http://api", .undefined⟩ Payload.stringify
        (fun _ => .ok ⟨true, .ok 42⟩) (.bigInt 1)).result
      = .error ⟨"TypeError", "Do not know how to serialize a BigInt"⟩ := by
  simp [createChat, Payload.stringify, Bind.bind, Run.bind, Run.callFetch, Run.await,
    Run.evaluate, Run.callJson, Run.requests]

/-- C5 as amended: for every payload that `JSON.stringify` turns into `body`
(a string, or `undefined`: no body), whatever `fetch` does, `createChat(chat)`
issues exactly one request: a POST to `app_url ++ '/chat'` with header
`Content-Type: application/json` and that body; when the response body parses
to `parsed` the call returns `parsed` and writes nothing to the console,
whether the response's `ok` flag is true or false; and for a payload on which
`JSON.stringify` throws, no request is issued and the error reaches the
caller. -/
theorem createChat_posts_once_when_payload_serialises {C J : Type} (global : GlobalStore)
    (stringify : C → Except JsError (Option String))
    (fetch : Request → Except JsError (Response J)) (chat : C) :
    (∀ body : Option String, stringify chat = .ok body →
        (createChat global stringify fetch chat).requests =
          [{ url := global.app_url.toStr ++ "/chat",
             init := some { method := "POST",
                            headers := [("Content-Type", "application/json")],
                            body := body } }]) ∧
    (∀ (body : Option String) (response : Response J) (parsed : J),
        stringify chat = .ok body →
        fetch (createChatRequest global body) = .ok response →
        response.json = .ok parsed →
        (createChat global stringify fetch chat).result = .ok parsed ∧
        (createChat global stringify fetch chat).logged = []) ∧
    (∀ e : JsError, stringify chat = .error e →
        (createChat global stringify fetch chat).requests = [] ∧
        (createChat global stringify fetch chat).result = .error e) := by
  refine ⟨?_, ?_, ?_⟩
  · intro body hbody
    cases hfetch : fetch (createChatRequest global body) with
    | error e =>
      simp only [createChatRequest] at hfetch
      simp [createChat, Bind.bind, Run.bind, Run.callFetch, Run.await, Run.evaluate,
        Run.callJson, Run.requests, hbody, hfetch]
    | ok response =>
      simp only [createChatRequest] at hfetch
      cases hjson : response.json <;>
        simp [createChat, Bind.bind, Run.bind, Run.callFetch, Run.await, Run.evaluate,
          Run.callJson, Run.requests, hbody, hfetch, hjson]
  · intro body response parsed hbody hfetch hjson
    simp only [createChatRequest] at hfetch
    simp [createChat, Bind.bind, Run.bind, Run.callFetch, Run.await, Run.evaluate,
      Run.callJson, Run.logged, hbody, hfetch, hjson]
  · intro e hbody
    simp [createChat, Bind.bind, Run.bind, Run.callFetch, Run.await, Run.evaluate,
      Run.callJson, Run.requests, hbody]

/-- C5 as amended, at a concrete input: the payload `{}`, sent to a backend
that answers with a non-OK response whose body parses to `42`. -/
theorem createChat_posts_once_when_payload_serialises_witness :
    (createChat (J := Nat) ⟨.str "http://api", .undefined⟩ Payload.stringify
        (fun _ => .ok ⟨false, .ok 42⟩) .emptyObject).requests
      = [⟨"http://api/chat",
          some ⟨"POST", [("Content-Type", "application/json")], some "{}"⟩⟩] ∧
    (createChat (J := Nat) ⟨.str "http://api", .undefined⟩ Payload.stringify
        (fun _ => .ok ⟨false, .ok 42⟩) .emptyObject).result = .ok 42 :=
  ⟨(createChat_posts_once_when_payload_serialises ⟨.str "http://api", .undefined⟩
      Payload.stringify (fun _ => .ok ⟨false, .ok 42⟩) .emptyObject).1 (some "{}") rfl,
   ((createChat_posts_once_when_payload_serialises ⟨.str "http://api", .undefined⟩
      Payload.stringify (fun _ => .ok ⟨false, .ok 42⟩) .emptyObject).2.1
      (some "{}") ⟨false, .ok 42⟩ 42 rfl rfl rfl).1⟩

/-- C6 fails as stated: when `fetch` rejects, `createChat` hands the rejection
to the caller and nothing has been written to the console. -/
theorem createChat_failure_reaches_caller_unlogged :
    (createChat (J := Nat) ⟨.str "http://api", .undefined⟩ Payload.stringify
        (fun _ => .error ⟨"TypeError", "Failed to fetch"⟩) .emptyObject).result
      = .error ⟨"TypeError", "Failed to fetch"⟩ ∧
    (createChat (J := Nat) ⟨.str "http://api", .undefined⟩ Payload.stringify
        (fun _ => .error ⟨"TypeError", "Failed to fetch"⟩) .emptyObject).logged = [] := by
  simp [createChat, Payload.stringify, Bind.bind, Run.bind, Run.callFetch, Run.await,
    Run.evaluate, Run.callJson, Run.logged]

/-- C6 as amended: in `getChats` a rejected `fetch` and a non-OK response, and
in `getChat` a rejected `fetch`, a non-OK response and a rejected body read,
are each written to the console once and the same error is what the caller
receives; `createChat` writes nothing to the console, and a rejected `fetch`
or body read reaches its caller as it is. For `getChat` and `createChat` the
request is the one made for the string `id` the chat id converts to and for
the `body` the payload serialises to. -/
theorem failures_logged_then_rethrown_in_chats_api {I C J : Type} (global : GlobalStore)
    (stringify : C → Except JsError (Option String))
    (fetch : Request → Except JsError (Response J))
    (toStr : I → Except JsError String) (chatId : I) (chat : C) :
    (∀ e : JsError, fetch ⟨chatsUrl global, none⟩ = .error e →
        (getChats global fetch).result = .error e ∧ (getChats global fetch).logged = [e]) ∧
    (∀ response : Response J,
        fetch ⟨chatsUrl global, none⟩ = .ok response → response.ok = false →
        (getChats global fetch).result = .error notOkError ∧
        (getChats global fetch).logged = [notOkError]) ∧
    (∀ (id : String) (e : JsError), toStr chatId = .ok id →
        fetch ⟨chatUrl global id, none⟩ = .error e →
        (getChat global fetch toStr chatId).result = .error e ∧
        (getChat global fetch toStr chatId).logged = [e]) ∧
    (∀ (id : String) (response : Response J), toStr chatId = .ok id →
        fetch ⟨chatUrl global id, none⟩ = .ok response → response.ok = false →
        (getChat global fetch toStr chatId).result = .error notOkError ∧
        (getChat global fetch toStr chatId).logged = [notOkError]) ∧
    (∀ (id : String) (response : Response J) (e : JsError), toStr chatId = .ok id →
        fetch ⟨chatUrl global id, none⟩ = .ok response → response.ok = true →
        response.json = .error e →
        (getChat global fetch toStr chatId).result = .error e ∧
        (getChat global fetch toStr chatId).logged = [e]) ∧
    (createChat global stringify fetch chat).logged = [] ∧
    (∀ (body : Option String) (e : JsError), stringify chat = .ok body →
        fetch (createChatRequest global body) = .error e →
        (createChat global stringify fetch chat).result = .error e) ∧
    (∀ (body : Option String) (response : Response J) (e : JsError),
        stringify chat = .ok body →
        fetch (createChatRequest global body) = .ok response →
        response.json = .error e →
        (createChat global stringify fetch chat).result = .error e) := by
  refine ⟨?_, ?_, ?_, ?_, ?_, ?_, ?_, ?_⟩
  · intro e hfetch
    simp only [chatsUrl] at hfetch
    simp [getChats, Run.adopt, Run.tryCatch, Bind.bind, Run.bind, Run.callFetch, Run.await,
      Run.throw, Run.consoleError, Run.callJson, Run.logged, hfetch]
  · intro response hfetch hok
    simp only [chatsUrl] at hfetch
    simp [getChats, Run.adopt, Run.tryCatch, Bind.bind, Run.bind, Run.callFetch, Run.await,
      Run.throw, Run.consoleError, Run.callJson, Run.logged, hfetch, hok, notOkError]
  · intro id e hid hfetch
    simp only [chatUrl] at hfetch
    simp [getChat, Run.tryCatch, Bind.bind, Run.bind, Run.callFetch, Run.await,
      Run.evaluate, Run.throw, Run.consoleError, Run.callJson, Run.logged, hid, hfetch]
  · intro id response hid hfetch hok
    simp only [chatUrl] at hfetch
    simp [getChat, Run.tryCatch, Bind.bind, Run.bind, Run.callFetch, Run.await,
      Run.evaluate, Run.throw, Run.consoleError, Run.callJson, Run.logged, hid, hfetch, hok,
      notOkError]
  · intro id response e hid hfetch hok hjson
    simp only [chatUrl] at hfetch
    simp [getChat, Run.tryCatch, Bind.bind, Run.bind, Run.callFetch, Run.await,
      Run.evaluate, Run.throw, Run.consoleError, Run.callJson, Run.logged, hid, hfetch, hok,
      hjson]
  · cases hbody : stringify chat with
    | error e =>
      simp [createChat, Bind.bind, Run.bind, Run.callFetch, Run.await, Run.evaluate,
        Run.callJson, Run.logged, hbody]
    | ok body =>
      cases hfetch : fetch (createChatRequest global body) with
      | error e =>
        simp only [createChatRequest] at hfetch
        simp [createChat, Bind.bind, Run.bind, Run.callFetch, Run.await, Run.evaluate,
          Run.callJson, Run.logged, hbody, hfetch]
      | ok response =>
        simp only [createChatRequest] at hfetch
        cases hjson : response.json <;>
          simp [createChat, Bind.bind, Run.bind, Run.callFetch, Run.await, Run.evaluate,
            Run.callJson, Run.logged, hbody, hfetch, hjson]
  · intro body e hbody hfetch
    simp only [createChatRequest] at hfetch
    simp [createChat, Bind.bind, Run.bind, Run.callFetch, Run.await, Run.evaluate,
      Run.callJson, hbody, hfetch]
  · intro body response e hbody hfetch hjson
    simp only [createChatRequest] at hfetch
    simp [createChat, Bind.bind, Run.bind, Run.callFetch, Run.await, Run.evaluate,
      Run.callJson, hbody, hfetch, hjson]

/-- C6 as amended, at a concrete input: an OK response whose body does not
parse is logged by `getChat('7')` and rethrown. -/
theorem failures_logged_then_rethrown_in_chats_api_witness :
    (getChat (J := Nat) ⟨.str "http://api", .undefined⟩
        (fun _ => .ok ⟨true, .error ⟨"SyntaxError", "Unexpected end of JSON input"⟩⟩)
        ChatId.toStr (.str "7")).result
      = .error ⟨"SyntaxError", "Unexpected end of JSON input"⟩ ∧
    (getChat (J := Nat) ⟨.str "http://api", .undefined⟩
        (fun _ => .ok ⟨true, .error ⟨"SyntaxError", "Unexpected end of JSON input"⟩⟩)
        ChatId.toStr (.str "7")).logged = [⟨"SyntaxError", "Unexpected end of JSON input"⟩] :=
  (failures_logged_then_rethrown_in_chats_api ⟨.str "http://api", .undefined⟩
      Payload.stringify
      (fun _ => .ok ⟨true, .error ⟨"SyntaxError", "Unexpected end of JSON input"⟩⟩)
      ChatId.toStr (.str "7") Payload.emptyObject).2.2.2.2.1
    "7" ⟨true, .error ⟨"SyntaxError", "Unexpected end of JSON input"⟩⟩
    ⟨"SyntaxError", "Unexpected end of JSON input"⟩ rfl rfl rfl rfl

/-- The other way `getChats` fails: its body read is returned without `await`,
so a rejected body read settles the call after the `try` block was left; it
reaches the caller and nothing is written to the console. -/
theorem getChats_rejected_body_read_not_logged {J : Type} (global : GlobalStore)
    (fetch : Request → Except JsError (Response J)) (response : Response J) (e : JsError)
    (hfetch : fetch ⟨global.app_url.toStr ++ "/chats", none⟩ = .ok response)
    (hok : response.ok = true) (hjson : response.json = .error e) :
    (getChats global fetch).result = .error e ∧ (getChats global fetch).logged = [] := by
  simp [getChats, Run.adopt, Run.tryCatch, Bind.bind, Run.bind, Run.callFetch, Run.await,
    Run.throw, Run.consoleError, Run.callJson, Run.logged, hfetch, hok, hjson]

/-! ## Theorems: `chatApi` -/

/-- The first member of the returned object literal is found in no scope of
`chat-api.js`; unless the global object supplies it, evaluating it throws. -/
theorem evalMembers_chatApiMembers_error (globals : List String)
    (h : "getChatHistory" ∉ globals) :
    evalMembers globals chatApiMembers
      = .error { name := "ReferenceError", message := "getChatHistory is not defined" } := by
  simp [chatApiMembers, evalMembers, resolveIdentifier, chatApiFunctionScope,
    chatApiModuleScope, h]

/-- C4, on the code: in a page whose global object has no property
`getChatHistory`, the call `chatApi()` throws
`ReferenceError: getChatHistory is not defined` when it builds the object it
should return; no object is returned. -/
theorem chatApi_throws_referenceError (globals : List String)
    (h : "getChatHistory" ∉ globals) :
    chatApi globals
      = .error { name := "ReferenceError", message := "getChatHistory is not defined" } :=
  evalMembers_chatApiMembers_error globals h

/-- C4, on the code, at a concrete page: the global object offers `window`,
`document`, `fetch`, `console` and `Alpine`. -/
theorem chatApi_throws_referenceError_witness :
    chatApi ["window", "document", "fetch", "console", "Alpine"]
      = .error { name := "ReferenceError", message := "getChatHistory is not defined" } :=
  chatApi_throws_referenceError ["window", "document", "fetch", "console", "Alpine"]
    (by decide)

/-- Whatever the global object offers, if `chatApi()` returns an object at all
then its member `getChatHistory` is a property of the global object, not an
operation of `chat-api.js`. -/
theorem chatApi_member_not_of_module (globals : List String)
    (object : List (String × Binding)) (h : chatApi globals = .ok object) :
    ("getChatHistory", Binding.globalObject "getChatHistory") ∈ object := by
  by_cases hg : "getChatHistory" ∈ globals
  · simp only [chatApi, chatApiMembers, evalMembers, resolveIdentifier, chatApiFunctionScope,
      chatApiModuleScope] at h
    simp [hg] at h
    split at h
    · simp at h
    · simp at h
      subst h
      simp
  · rw [chatApi, evalMembers_chatApiMembers_error globals hg] at h
    simp at h

/-! ## Theorems: the title hook -/

/-- A value concatenated with a non-empty string is truthy. -/
theorem JsVal.addStr_truthy (a : JsVal) (s : String) (hs : s.length ≠ 0) :
    (a.addStr s).truthy = true := by
  have hlen : (a.toStr ++ s).length ≠ 0 := by
    rw [String.length_append]
    omega
  simpa [JsVal.addStr, JsVal.truthy] using hlen

/-- The hook always takes the left operand of `||`: the title written is the
string conversion of `to.meta.title` followed by `' - Nulaidukas'`. -/
theorem afterEach_title_eq (toRoute : RouteLocation) (document : Document) :
    (afterEach toRoute document).title = toRoute.routeMeta.title.toStr ++ " - Nulaidukas" := by
  have htruthy := JsVal.addStr_truthy toRoute.routeMeta.title " - Nulaidukas" (by decide)
  simp only [afterEach, JsVal.or, htruthy, if_true]
  rfl

/-- C8: after a navigation to a route whose `meta.title` is the string `t`
the document title is `t ++ ' - Nulaidukas'`; the table `routes` has one
record for each of the paths `/`, `/:id` and `/settings`; after a navigation
to the route `/` or to the route `/:id` the title is `Chat - Nulaidukas`,
after a navigation to the route `/settings` it is `Settings - Nulaidukas`. -/
theorem afterEach_sets_title (document : Document) :
    (∀ (toRoute : RouteLocation) (t : String), toRoute.routeMeta.title = .str t →
        (afterEach toRoute document).title = t ++ " - Nulaidukas") ∧
    routes.map (fun record => record.path) = ["/", "/:id", "/settings"] ∧
    (∀ record ∈ routes, record.path = "/" ∨ record.path = "/:id" →
        (afterEach record.location document).title = "Chat - Nulaidukas") ∧
    (∀ record ∈ routes, record.path = "/settings" →
        (afterEach record.location document).title = "Settings - Nulaidukas") := by
  have key : ∀ (toRoute : RouteLocation) (t : String), toRoute.routeMeta.title = .str t →
      (afterEach toRoute document).title = t ++ " - Nulaidukas" := by
    intro toRoute t h
    rw [afterEach_title_eq, h]
    rfl
  refine ⟨key, rfl, ?_, ?_⟩
  · intro record hmem hpath
    simp only [routes, List.mem_cons, List.mem_singleton, List.not_mem_nil, or_false] at hmem
    rcases hmem with rfl | rfl | rfl
    · exact key _ "Chat" rfl
    · exact key _ "Chat" rfl
    · simp at hpath
  · intro record hmem hpath
    simp only [routes, List.mem_cons, List.mem_singleton, List.not_mem_nil, or_false] at hmem
    rcases hmem with rfl | rfl | rfl
    · simp at hpath
    · simp at hpath
    · exact key _ "Settings" rfl

/-- C8 at a concrete input: a navigation that matched the third record of
`routes`, in a document titled `Vite App`. -/
theorem afterEach_sets_title_witness :
    (afterEach
        (RouteRecord.location
          { path := "/settings", component := .Settings, name := none, props := false,
            routeMeta := { title := .str "Settings" } })
        { title := "Vite App" }).title = "Settings - Nulaidukas" :=
  (afterEach_sets_title { title := "Vite App" }).2.2.2
    { path := "/settings", component := .Settings, name := none, props := false,
      routeMeta := { title := .str "Settings" } }
    (by simp [routes]) rfl

/-- C9, on the code: after a navigation to a route whose `meta` has no
`title`, the document title is `undefined - Nulaidukas`, not the fallback
`Nulaidikas`. -/
theorem afterEach_untitled_route (document : Document) :
    (afterEach { routeMeta := { title := .undefined } } document).title
      = "undefined - Nulaidukas" ∧
    (afterEach { routeMeta := { title := .undefined } } document).title ≠ "Nulaidikas" := by
  have h : (afterEach { routeMeta := { title := .undefined } } document).title
      = "undefined - Nulaidukas" := by
    rw [afterEach_title_eq]
    decide
  exact ⟨h, by rw [h]; decide⟩

/-- The fallback of the hook is never taken: no navigation leaves the
document titled `Nulaidikas`. -/
theorem afterEach_never_falls_back (toRoute : RouteLocation) (document : Document) :
    (afterEach toRoute document).title ≠ "Nulaidikas" := by
  intro h
  have hl := congrArg String.length h
  rw [afterEach_title_eq, String.length_append] at hl
  have h13 : " - Nulaidukas".length = 13 := by decide
  have h10 : "Nulaidikas".length = 10 := by decide
  omega

/-! ## Theorems: the exported component map -/

/-- The keys of an object after an assignment to an ordinary key. -/
theorem keys_addProperty {V : Type} (key : String) (value : V) (object : List (String × V)) :
    (addProperty key value object).map Prod.fst =
      if key ∈ object.map Prod.fst then object.map Prod.fst
      else object.map Prod.fst ++ [key] := by
  induction object with
  | nil => simp [addProperty]
  | cons entry rest ih =>
    obtain ⟨k, v⟩ := entry
    by_cases hk : k = key
    · simp [addProperty, hk]
    · have hk2 : ¬ key = k := fun h => hk h.symm
      by_cases hmem : key ∈ rest.map Prod.fst
      · simp only [addProperty, hk, if_false, List.map_cons, ih, hmem, if_true,
          List.mem_cons, or_true]
      · simp only [addProperty, hk, if_false, List.map_cons, ih, hmem, List.mem_cons, hk2,
          or_self, List.cons_append]

/-- Reading an own property after an assignment to an ordinary key. -/
theorem getProperty_addProperty {V : Type} (key : String) (value : V) (name : String)
    (object : List (String × V)) :
    getProperty name (addProperty key value object) =
      if name = key then some value else getProperty name object := by
  induction object with
  | nil =>
    by_cases h : name = key
    · simp [addProperty, getProperty, h]
    · have h2 : ¬ key = name := fun e => h e.symm
      simp [addProperty, getProperty, h, h2]
  | cons entry rest ih =>
    obtain ⟨k, v⟩ := entry
    by_cases hk : k = key
    · subst hk
      by_cases h : name = k
      · simp [addProperty, getProperty, h]
      · have h2 : ¬ k = name := fun e => h e.symm
        simp [addProperty, getProperty, h, h2]
    · by_cases h : k = name
      · have h3 : ¬ name = key := fun e => hk (h.trans e)
        simp [addProperty, getProperty, hk, h, h3]
      · simp [addProperty, getProperty, hk, h, ih]

/-- The keys of an object after `object[key] = value`. -/
theorem keys_setProperty {V : Type} (key : String) (value : V) (object : List (String × V)) :
    (setProperty key value object).map Prod.fst =
      if key = "__proto__" then object.map Prod.fst
      else if key ∈ object.map Prod.fst then object.map Prod.fst
      else object.map Prod.fst ++ [key] := by
  by_cases hproto : key = "__proto__"
  · simp [setProperty, hproto]
  · simp only [setProperty, hproto, if_false, keys_addProperty]

/-- Reading an own property after `object[key] = value`. -/
theorem getProperty_setProperty {V : Type} (key : String) (value : V) (name : String)
    (object : List (String × V)) :
    getProperty name (setProperty key value object) =
      if key = "__proto__" then getProperty name object
      else if name = key then some value else getProperty name object := by
  by_cases hproto : key = "__proto__"
  · simp [setProperty, hproto]
  · simp only [setProperty, hproto, if_false, getProperty_addProperty]

/-- One more pass of the loop of `ui/index.js`. -/
theorem exportedComponents_append {V : Type} (components : List (String × VueModule V))
    (entry : String × VueModule V) :
    exportedComponents (components ++ [entry]) =
      setProperty (componentName entry.1) entry.2.default (exportedComponents components) := by
  simp [exportedComponents, List.foldl_append]

/-- No name is a key of the exported map twice. -/
theorem exportedComponents_keys_nodup {V : Type} (components : List (String × VueModule V)) :
    ((exportedComponents components).map Prod.fst).Nodup := by
  induction components using List.reverseRecOn with
  | nil => simp [exportedComponents]
  | append_singleton l entry ih =>
    rw [exportedComponents_append, keys_setProperty]
    split
    · exact ih
    · split
      · exact ih
      · rename_i hmem
        exact List.Nodup.append ih (List.nodup_singleton _) (by simpa using hmem)

/-- The keys of the exported map are the derived names other than
`__proto__`. -/
theorem mem_exportedComponents_keys {V : Type} (components : List (String × VueModule V))
    (name : String) :
    name ∈ (exportedComponents components).map Prod.fst ↔
      name ≠ "__proto__" ∧ name ∈ components.map (fun entry => componentName entry.1) := by
  induction components using List.reverseRecOn generalizing name with
  | nil => simp [exportedComponents]
  | append_singleton l entry ih =>
    rw [exportedComponents_append, keys_setProperty, List.map_append, List.mem_append]
    simp only [List.map_cons, List.map_nil, List.mem_singleton]
    by_cases hproto : componentName entry.1 = "__proto__"
    · rw [if_pos hproto, ih name]
      constructor
      · rintro ⟨hne, hmem⟩
        exact ⟨hne, Or.inl hmem⟩
      · rintro ⟨hne, hmem | heq⟩
        · exact ⟨hne, hmem⟩
        · exact absurd (heq.trans hproto) hne
    · rw [if_neg hproto]
      by_cases hmem : componentName entry.1 ∈ (exportedComponents l).map Prod.fst
      · rw [if_pos hmem, ih name]
        constructor
        · rintro ⟨hne, h⟩
          exact ⟨hne, Or.inl h⟩
        · rintro ⟨hne, h | heq⟩
          · exact ⟨hne, h⟩
          · rw [heq]
            exact (ih _).mp hmem
      · rw [if_neg hmem, List.mem_append, ih name, List.mem_singleton]
        constructor
        · rintro (⟨hne, h⟩ | heq)
          · exact ⟨hne, Or.inl h⟩
          · exact ⟨by rw [heq]; exact hproto, Or.inr heq⟩
        · rintro ⟨hne, h | heq⟩
          · exact Or.inl ⟨hne, h⟩
          · exact Or.inr heq

/-- Passes of the loop over paths that derive other names leave an own
property as it was. -/
theorem getProperty_foldl_of_not_mem {V : Type} (name : String)
    (post : List (String × VueModule V))
    (hpost : ∀ entry ∈ post, componentName entry.1 ≠ name) (object : List (String × V)) :
    getProperty name
        (post.foldl
          (fun exported entry => setProperty (componentName entry.1) entry.2.default exported)
          object)
      = getProperty name object := by
  induction post generalizing object with
  | nil => rfl
  | cons entry rest ih =>
    rw [List.foldl_cons, ih (fun e he => hpost e (List.mem_cons_of_mem _ he)),
      getProperty_setProperty]
    have hne : ¬ name = componentName entry.1 :=
      fun e => hpost entry (List.mem_cons_self _ _) e.symm
    simp [hne]

/-- The number of entries of the exported map: the number of distinct derived
names other than `__proto__`. -/
theorem exportedComponents_length {V : Type} (components : List (String × VueModule V)) :
    (exportedComponents components).length =
      ((components.map (fun entry => componentName entry.1)).filter
        (fun name => decide (name ≠ "__proto__"))).dedup.length := by
  have h1 : ((exportedComponents components).map Prod.fst).toFinset =
      ((components.map (fun entry => componentName entry.1)).filter
        (fun name => decide (name ≠ "__proto__"))).toFinset := by
    ext name
    simp only [List.mem_toFinset, List.mem_filter, decide_eq_true_eq]
    rw [mem_exportedComponents_keys components name]
    exact and_comm
  have h2 := List.toFinset_card_of_nodup (exportedComponents_keys_nodup components)
  rw [h1, List.card_toFinset, List.length_map] at h2
  exact h2.symm

/-- C10 fails as stated: of the two files `./Card.vue` and `./__proto__.vue`,
which derive the two distinct names `Card` and `__proto__`, only the first
gets an entry of the exported map. -/
theorem exportedComponents_drops_proto_name :
    ([("./Card.vue", (⟨1⟩ : VueModule Nat)), ("./__proto__.vue", ⟨2⟩)].map
        (fun entry => componentName entry.1)) = ["Card", "__proto__"] ∧
    exportedComponents [("./Card.vue", (⟨1⟩ : VueModule Nat)), ("./__proto__.vue", ⟨2⟩)]
      = [("Card", 1)] := by
  refine ⟨by decide, by decide⟩

/-- C10 as amended: the exported map has exactly one entry per distinct
derived name other than `__proto__` (no key occurs twice, and the keys are
those names); it has as many entries as there are globbed files if and only
if the derived names are pairwise distinct and none of them is `__proto__`;
and when several paths derive one name other than `__proto__`, the entry
under that name is the default export of the last of them in enumeration
order. -/
theorem exportedComponents_one_entry_per_name {V : Type}
    (components : List (String × VueModule V)) :
    ((exportedComponents components).map Prod.fst).Nodup ∧
    (∀ name : String, name ∈ (exportedComponents components).map Prod.fst ↔
        name ≠ "__proto__" ∧ ∃ entry ∈ components, componentName entry.1 = name) ∧
    ((exportedComponents components).length = components.length ↔
        (components.map (fun entry => componentName entry.1)).Nodup ∧
        "__proto__" ∉ components.map (fun entry => componentName entry.1)) ∧
    (∀ (pre post : List (String × VueModule V)) (path : String) (module : VueModule V),
        components = pre ++ (path, module) :: post →
        componentName path ≠ "__proto__" →
        (∀ entry ∈ post, componentName entry.1 ≠ componentName path) →
        getProperty (componentName path) (exportedComponents components)
          = some module.default) := by
  refine ⟨exportedComponents_keys_nodup components, ?_, ?_, ?_⟩
  · intro name
    rw [mem_exportedComponents_keys]
    simp
  · rw [exportedComponents_length]
    set names := components.map (fun entry => componentName entry.1) with hnames
    have hlen : names.length = components.length := by simp [hnames]
    have hfilter := List.filter_sublist (p := fun name => decide (name ≠ "__proto__")) names
    have hdedup := List.dedup_sublist (names.filter (fun name => decide (name ≠ "__proto__")))
    constructor
    · intro h
      have h1 := hfilter.length_le
      have h2 := hdedup.length_le
      have hfeq : names.filter (fun name => decide (name ≠ "__proto__")) = names :=
        hfilter.eq_of_length (by omega)
      have hdeq := hdedup.eq_of_length (by omega)
      rw [hfeq] at hdeq
      refine ⟨List.dedup_eq_self.mp hdeq, ?_⟩
      intro hmem
      have := (List.filter_eq_self.mp hfeq) "__proto__" hmem
      simp at this
    · rintro ⟨hnodup, hproto⟩
      have hfeq : names.filter (fun name => decide (name ≠ "__proto__")) = names := by
        rw [List.filter_eq_self]
        intro name hmem
        have hne : name ≠ "__proto__" := fun e => hproto (e ▸ hmem)
        simpa using hne
      rw [hfeq, hnodup.dedup, hlen]
  · intro pre post path module hsplit hproto hpost
    subst hsplit
    have hfold : exportedComponents (pre ++ (path, module) :: post) =
        post.foldl
          (fun exported entry => setProperty (componentName entry.1) entry.2.default exported)
          (setProperty (componentName path) module.default (exportedComponents pre)) := by
      simp [exportedComponents, List.foldl_append]
    rw [hfold, getProperty_foldl_of_not_mem _ post hpost, getProperty_setProperty]
    simp [hproto]

/-- C10 as amended, at a concrete input: two files named `Button.vue` in
different directories and one `Card.vue`; the entry `Button` holds the later
one. -/
theorem exportedComponents_one_entry_per_name_witness :
    getProperty (componentName "./b/Button.vue")
        (exportedComponents
          [("./a/Button.vue", (⟨1⟩ : VueModule Nat)), ("./Card.vue", ⟨2⟩),
           ("./b/Button.vue", ⟨3⟩)])
      = some 3 :=
  (exportedComponents_one_entry_per_name
      [("./a/Button.vue", (⟨1⟩ : VueModule Nat)), ("./Card.vue", ⟨2⟩),
       ("./b/Button.vue", ⟨3⟩)]).2.2.2
    [("./a/Button.vue", ⟨1⟩), ("./Card.vue", ⟨2⟩)] [] "./b/Button.vue" ⟨3⟩ rfl
    (by decide) (by simp)

/-! ## Theorems: the derived component name -/

/-- C7, on the code: for the file `./Button.vuex.vue`, whose path ends in
`.vue`, the derived name is `Buttonx.vue` (the first `.vue` of the file name
is removed), not the file name without its trailing extension, `Button.vuex`;
the component is exported and registered under `Buttonx.vue` and nothing is
registered under `Button.vuex`. -/
theorem componentName_removes_first_occurrence :
    componentName "./Button.vuex.vue" = "Buttonx.vue" ∧
    fileStem "./Button.vuex.vue" = "Button.vuex" ∧
    (registerUi (exportedComponents [("./Button.vuex.vue", (⟨0⟩ : VueModule Nat))])
        { components := [] }).components = [("Buttonx.vue", 0)] ∧
    getProperty "Button.vuex"
      (registerUi (exportedComponents [("./Button.vuex.vue", (⟨0⟩ : VueModule Nat))])
        { components := [] }).components = none := by
  refine ⟨by decide, by decide, by decide, by decide⟩

/-- Replacing the first occurrence of a pattern in `stem ++ pattern` removes
the trailing one when the pattern occurs nowhere earlier. -/
theorem jsReplace_append_pattern (pattern stem : List Char) (hne : pattern ≠ [])
    (h : ∀ i, i < stem.length → pattern.isPrefixOf ((stem ++ pattern).drop i) = false) :
    jsReplace pattern [] (stem ++ pattern) = stem := by
  induction stem with
  | nil =>
    cases pattern with
    | nil => exact absurd rfl hne
    | cons c cs => simp [jsReplace]
  | cons c rest ih =>
    have h0 := h 0 (by simp)
    have hrest : ∀ i, i < rest.length →
        pattern.isPrefixOf ((rest ++ pattern).drop i) = false := by
      intro i hi
      have := h (i + 1) (by simpa using hi)
      simpa using this
    have hnot : ¬ pattern <+: c :: (rest ++ pattern) := by
      intro hpre
      rw [List.drop_zero, List.cons_append, List.isPrefixOf_iff_prefix.mpr hpre] at h0
      exact Bool.noConfusion h0
    simp [jsReplace, hnot, ih hrest]

/-- Where the code and the expected name agree: when the last segment of the
path is `stem ++ '.vue'` and `.vue` starts at no position inside `stem`, the
derived name is `stem`, the file name without its extension. -/
theorem componentName_eq_fileStem (path : String) (stem : List Char)
    (hsegment : ((jsSplit '/' path.data).getLast?).getD [] = stem ++ ".vue".data)
    (h : ∀ i, i < stem.length →
      (".vue".data).isPrefixOf ((stem ++ ".vue".data).drop i) = false) :
    componentName path = String.mk stem ∧ fileStem path = String.mk stem := by
  constructor
  · simp only [componentName, hsegment]
    rw [jsReplace_append_pattern _ stem (by decide) h]
  · have hsuffix : (".vue".data).isSuffixOf (stem ++ ".vue".data) = true := by
      simp [List.isSuffixOf]
    have hlen : ".vue".data.length = 4 := by decide
    simp only [fileStem, hsegment, hsuffix, if_true, List.length_append, hlen,
      Nat.add_sub_cancel, List.take_left']

/-- The agreement at a concrete input: `./forms/Button.vue` derives `Button`. -/
theorem componentName_eq_fileStem_witness :
    componentName "./forms/Button.vue" = "Button" ∧ fileStem "./forms/Button.vue" = "Button" :=
  componentName_eq_fileStem "./forms/Button.vue" "Button".data (by decide) (by decide)

end CutCost
